import Mathlib

/-!
# Verification of the bilibili-analyzer frame-extraction core

Shallow embedding of `skills/bilibili-analyzer/scripts/extract_frames.py`
and `skills/bilibili-analyzer/scripts/analyze_frames.py`.

External effects (the ffmpeg/ffprobe subprocess, the filesystem glob, file
reads) are modelled as explicit inputs: an `EngineOutcome` says how a
subprocess invocation ended and which frame files the subsequent glob found;
a `FramesDir` says whether the sampler's directory exists, which
`frame_*.jpg` files it holds (in the sorted order `sorted(...glob(...))`
returns them), and how reading each file ends.  The Python control flow is
then translated function by function.
-/

namespace BilibiliAnalyzer

/-- Outcome of one ffmpeg invocation (`subprocess.run(..., check=True)`)
together with the frame files the following `sorted(Path(output_dir).glob(...))`
finds.  The three exception arms of the `try` in `extract_frames_interval` /
`extract_frames_scene` are `calledProcessError` (nonzero exit, carrying
`e.stderr`), `fileNotFound` (the ffmpeg binary is missing) and `otherError`
(the bare `except Exception`). -/
inductive EngineOutcome where
  | ok (globbed : List String)
  | calledProcessError (stderr : String)
  | fileNotFound
  | otherError (msg : String)
  deriving DecidableEq, Repr

/-- Result dictionary of an extractor.  A success dict carries
`'success': True`, the method tag, the method parameter (threshold for
scene detection, interval for interval extraction), `'frame_count'`
(always `len(frames)` at construction) and the frame list; an error dict
carries `'error'` and `'details'` and has no `'frame_count'` key. -/
inductive ExtractResult where
  | sceneSuccess (threshold : ℚ) (frames : List String)
  | intervalSuccess (interval : ℤ) (frames : List String)
  | failure (error : String) (details : String)
  deriving DecidableEq, Repr

/-- `result.get('frame_count', 0)`: present (and equal to the length of the
frame list) on a success dict, defaulted to `0` on an error dict. -/
def ExtractResult.frameCountOrZero : ExtractResult → ℕ
  | .sceneSuccess _ frames => frames.length
  | .intervalSuccess _ frames => frames.length
  | .failure _ _ => 0

/-- `'error' in result` holds exactly on the failure dicts. -/
def ExtractResult.isFailure : ExtractResult → Bool
  | .failure _ _ => true
  | _ => false

def ExtractResult.isSuccess (r : ExtractResult) : Bool := !r.isFailure

/-- The `'frames'` entry of a success dict (`[]` for an error dict, which
has no such key; only used on successes). -/
def ExtractResult.framesOf : ExtractResult → List String
  | .sceneSuccess _ frames => frames
  | .intervalSuccess _ frames => frames
  | .failure _ _ => []

/-- `extract_frames_interval(video_path, output_dir, interval)`: run ffmpeg
with `-vf fps=1/interval`; on success glob `frame_*.jpg` and return a
success dict with `'frame_count': len(frame_paths)`; map each exception to
its error dict. -/
def extract_frames_interval (interval : ℤ) (eng : EngineOutcome) : ExtractResult :=
  match eng with
  | .ok globbed => .intervalSuccess interval globbed
  | .calledProcessError stderr => .failure "Frame extraction failed" stderr
  | .fileNotFound => .failure "ffmpeg not found" "Please install ffmpeg"
  | .otherError msg => .failure "Unexpected error" msg

/-- `extract_frames_scene(video_path, output_dir, threshold=0.3)`: run
ffmpeg with a scene-change select filter; on success glob `scene_*.jpg`
and return a success dict; same exception handling as the interval
extractor. -/
def extract_frames_scene (threshold : ℚ) (eng : EngineOutcome) : ExtractResult :=
  match eng with
  | .ok globbed => .sceneSuccess threshold globbed
  | .calledProcessError stderr => .failure "Frame extraction failed" stderr
  | .fileNotFound => .failure "ffmpeg not found" "Please install ffmpeg"
  | .otherError msg => .failure "Unexpected error" msg

/-- Python `int(x)` on a float: truncation toward zero.  Durations are
modelled as exact rationals. -/
def pyTruncInt (q : ℚ) : ℤ := if 0 ≤ q then ⌊q⌋ else -⌊-q⌋

/-- The fallback interval computed in `main`:
`interval = max(10, int(duration / 30))`. -/
def fallbackInterval (duration : ℚ) : ℤ := max 10 (pyTruncInt (duration / 30))

/-- The `mode == 'auto'` branch of `main`.  `get_video_duration` returns a
parsed float or `None` (its bare `except` swallows every failure), so the
probe's outcome is the input `probe : Option ℚ`.  `if duration:` is Python
truthiness: `None` and `0.0` are falsy, every other float is truthy.
`sceneEng` and `intervalEng` are the outcomes of the (at most) two engine
invocations. -/
def autoModeResult (sceneEng intervalEng : EngineOutcome) (probe : Option ℚ) :
    ExtractResult :=
  let result := extract_frames_scene (3/10) sceneEng
  if result.frameCountOrZero > 50 ∨ result.frameCountOrZero < 5 then
    match probe with
    | none => result
    | some duration =>
        if duration = 0 then result
        else extract_frames_interval (fallbackInterval duration) intervalEng
  else result

/-- Outcome of `main` after the mode dispatch: either it exited with the
`'Invalid interval'` error (the `ValueError` branch) or it computed a
result dict (which it then prints, exiting 1 when the dict is an error). -/
inductive MainOutcome where
  | invalidInterval
  | finished (r : ExtractResult)
  deriving DecidableEq, Repr

/-- The mode dispatch of `main` (after the argument-count and
file-existence checks): `'auto'` takes the adaptive path; any other mode
string is fed to the builtin `int(...)`, whose full grammar (surrounding
whitespace, sign, Unicode decimal digits with underscore grouping) is
external to this repository, so its outcome is taken as the input
`intParse : Option ℤ` — `some i` when `int(mode)` returns `i`, `none` when
it raises `ValueError`.  On `some i` the interval extractor runs directly
with `i`; on `none` `main` prints the `'Invalid interval'` error and
exits. -/
def mainMode (mode : String) (intParse : Option ℤ)
    (sceneEng intervalEng : EngineOutcome) (probe : Option ℚ) : MainOutcome :=
  if mode = "auto" then .finished (autoModeResult sceneEng intervalEng probe)
  else
    match intParse with
    | some interval => .finished (extract_frames_interval interval intervalEng)
    | none => .invalidInterval

end BilibiliAnalyzer

namespace BilibiliAnalyzer

/-- One `frame_*.jpg` file as the sampler sees it: its name and the outcome
of the `try` block that stats and base64-encodes it — `some (size, base64)`
when both succeed, `none` when any step raises (the `except` prints a
warning and `continue`s). -/
structure Frame where
  name : String
  readResult : Option (ℕ × String)
  deriving DecidableEq, Repr

/-- The `frame_info` the loop body builds for a readable frame, projected
to the fields the final result reports: name, `stat().st_size`, and
`len(base64)`. -/
def Frame.readData (f : Frame) : Option (String × ℕ × ℕ) :=
  f.readResult.map (fun p => (f.name, p.1, p.2.length))

/-- The sampler's view of `frames_dir`: the path string (used in the
error details), whether the path exists, and the `frame_*.jpg` files in
the order `sorted(frames_path.glob('frame_*.jpg'))` yields them (empty
when the directory exists but holds no match). -/
structure FramesDir where
  path : String
  dirExists : Bool
  files : List Frame
  deriving DecidableEq, Repr

/-- Result of `analyze_frames`: one of the three error dicts, a success
dict (total count, analyzed count, and per-frame `(name, size,
base64_length)` records), or an uncaught exception escaping the function
(`ZeroDivisionError` from `total_frames // sample_count`, `IndexError`
from `frame_files[i * step]`). -/
inductive AnalyzeResult where
  | err (error : String) (details : String)
  | crash
  | ok (total_frames : ℕ) (analyzed_frames : ℕ) (frames : List (String × ℕ × ℕ))
  deriving DecidableEq, Repr

/-- The even-sampling step of `analyze_frames`: all files when
`total_frames <= sample_count`, else `step = total_frames // sample_count`
and `[frame_files[i * step] for i in range(sample_count)]`.  Python raises
`ZeroDivisionError` on `// 0` and `IndexError` on an out-of-range index;
both uncaught exceptions are modelled as `none`. -/
def sampleSelected (files : List Frame) (sample_count : ℕ) :
    Option (List Frame) :=
  let total_frames := files.length
  if total_frames ≤ sample_count then some files
  else if sample_count = 0 then none
  else
    let step := total_frames / sample_count
    (List.range sample_count).mapM (fun i => files[i * step]?)

/-- `analyze_frames(frames_dir, sample_count=8)`: the directory-existence
check, the glob-emptiness check, even sampling, the per-frame read loop
that skips unreadable frames, the all-reads-failed check, and the success
dict. -/
def analyze_frames (d : FramesDir) (sample_count : ℕ) : AnalyzeResult :=
  if d.dirExists = false then
    .err "Frames directory not found" ("Directory " ++ d.path ++ " does not exist")
  else
    let frame_files := d.files
    if frame_files.isEmpty then
      .err "No frames found" ("No frame_*.jpg files in " ++ d.path)
    else
      match sampleSelected frame_files sample_count with
      | none => .crash
      | some selected_frames =>
          let frames_data := selected_frames.filterMap Frame.readData
          if frames_data.isEmpty then
            .err "Failed to process frames" "Could not read any frame files"
          else
            .ok frame_files.length frames_data.length frames_data

/-- The index set the even-sampling else-branch draws from:
`{0, step, 2*step, ..., (k-1)*step}` with `step = n // k` (in order). -/
def selectedIndices (n k : ℕ) : List ℕ :=
  (List.range k).map (fun i => i * (n / k))

/-! Concrete data used by the closed witness theorems. -/

/-- A generic readable frame file. -/
def frameA : Frame := ⟨"frame_0000.jpg", some (1, "x")⟩

/-- A frame whose stat/read/encode step raises. -/
def frameBad : Frame := ⟨"frame_0001.jpg", none⟩

/-- A readable 5-byte frame whose base64 payload is "QUJD". -/
def frameGood : Frame := ⟨"frame_0002.jpg", some (5, "QUJD")⟩

/-- A directory path that does not exist. -/
def dirMissing : FramesDir := ⟨"frames_missing", false, []⟩

/-- An existing directory with no matching files. -/
def dirEmpty : FramesDir := ⟨"frames_empty", true, []⟩

/-- An existing directory whose only frame cannot be read. -/
def dirAllBad : FramesDir := ⟨"frames_bad", true, [frameBad]⟩

/-- An existing directory with one unreadable and one readable frame. -/
def dirMixed : FramesDir := ⟨"frames_mixed", true, [frameBad, frameGood]⟩

end BilibiliAnalyzer

namespace BilibiliAnalyzer

/-! ## Shared helper lemmas -/

/-- The fallback interval computed with Python truncation agrees with the
floor-based formula `max(10, ⌊duration / 30⌋)`: truncation and floor differ
only on negative non-integers, where both are dominated by the floor 10. -/
lemma fallbackInterval_eq_max_floor (d : ℚ) :
    fallbackInterval d = max 10 ⌊d / 30⌋ := by
  unfold fallbackInterval pyTruncInt
  split
  · rfl
  · rename_i h
    push_neg at h
    have h1 : (0 : ℤ) ≤ ⌊-(d / 30)⌋ := Int.floor_nonneg.mpr (by linarith)
    have h2 : (⌊d / 30⌋ : ℤ) ≤ 0 := by
      have := Int.floor_le_floor (le_of_lt h)
      simpa using this
    rw [max_eq_left (by omega), max_eq_left (by omega)]

/-- Reading a list at in-bounds positions through the crash-modelling
`xs[g i]?` never crashes and agrees with `getD`. -/
lemma mapM_getElem_of_bounds {α : Type} (xs : List α) (dflt : α) (g : ℕ → ℕ) :
    ∀ (is : List ℕ), (∀ i ∈ is, g i < xs.length) →
      is.mapM (fun i => xs[g i]?) = some (is.map (fun i => xs.getD (g i) dflt)) := by
  intro is
  induction is with
  | nil => intro _; rfl
  | cons i is ih =>
      intro h
      have hi : g i < xs.length := h i (List.mem_cons_self i is)
      have hrest := ih (fun j hj => h j (List.mem_cons_of_mem _ hj))
      rw [List.mapM_cons, hrest]
      simp [List.getElem?_eq_getElem hi, List.getD_eq_getElem?_getD]

/-- Index bound for the even-sampling step: for `k < n` every selected
index `j * (n / k)` with `j < k` stays below `n`. -/
lemma sample_index_lt (n k j : ℕ) (hk : 0 < k) (hkn : k < n) (hj : j < k) :
    j * (n / k) < n := by
  have hs1 : 1 ≤ n / k := (Nat.one_le_div_iff hk).mpr (le_of_lt hkn)
  have h1 : j * (n / k) ≤ (k - 1) * (n / k) := Nat.mul_le_mul_right _ (by omega)
  have h2 : (k - 1) * (n / k) = k * (n / k) - 1 * (n / k) := by rw [Nat.sub_mul]
  have h3 : n / k * k ≤ n := Nat.div_mul_le_self n k
  have h4 : k * (n / k) = n / k * k := Nat.mul_comm _ _
  omega

/-- A frame whose read raises contributes nothing to `frames_data`. -/
lemma filterMap_readData_eq_nil (sel : List Frame)
    (h : ∀ f ∈ sel, f.readResult = none) :
    sel.filterMap Frame.readData = [] := by
  induction sel with
  | nil => rfl
  | cons f fs ih =>
      have hf := h f (List.mem_cons_self f fs)
      simp [List.filterMap_cons, Frame.readData, hf,
        ih (fun g hg => h g (List.mem_cons_of_mem _ hg))]

/-- `frames_data` has one record per readable selected frame: skipping an
unreadable frame drops exactly that frame and nothing else. -/
lemma length_filterMap_readData (sel : List Frame) :
    (sel.filterMap Frame.readData).length =
      (sel.filter (fun f => f.readResult.isSome)).length := by
  induction sel with
  | nil => rfl
  | cons f fs ih =>
      cases hr : f.readResult with
      | none => simp [List.filterMap_cons, List.filter_cons, Frame.readData, hr, ih]
      | some v => simp [List.filterMap_cons, List.filter_cons, Frame.readData, hr, ih]

/-! ## Claims about the extraction strategy selector -/

/-- **C6.** In auto mode, a scene-change extraction that succeeds with a
frame count in the closed band [5, 50] is returned unchanged; the result
does not depend on the duration-probe outcome or on the interval engine,
i.e. neither is ever invoked. -/
theorem C6_scene_band_accepted_unchanged (fs : List String) (ie : EngineOutcome)
    (probe : Option ℚ) (h5 : 5 ≤ fs.length) (h50 : fs.length ≤ 50) :
    autoModeResult (.ok fs) ie probe = .sceneSuccess (3/10) fs := by
  simp only [autoModeResult, extract_frames_scene, ExtractResult.frameCountOrZero]
  rw [if_neg (by omega)]

/-- Witness for C6 at a concrete five-frame scene result. -/
theorem C6_scene_band_accepted_unchanged_witness :
    5 ≤ (["s1", "s2", "s3", "s4", "s5"] : List String).length ∧
    (["s1", "s2", "s3", "s4", "s5"] : List String).length ≤ 50 ∧
    autoModeResult (.ok ["s1", "s2", "s3", "s4", "s5"]) .fileNotFound (some 900) =
      .sceneSuccess (3/10) ["s1", "s2", "s3", "s4", "s5"] :=
  ⟨by decide, by decide,
    C6_scene_band_accepted_unchanged _ _ _ (by decide) (by decide)⟩

/-- **C7.** In auto mode, a scene-change result with an unsatisfactory
frame count (> 50 or < 5) is still returned unchanged when the duration
probe reports the duration as unknown; the interval extractor is not run
(the result does not depend on the interval engine). -/
theorem C7_unknown_duration_keeps_scene (fs : List String) (ie : EngineOutcome)
    (hc : 50 < fs.length ∨ fs.length < 5) :
    autoModeResult (.ok fs) ie none = .sceneSuccess (3/10) fs := by
  simp only [autoModeResult, extract_frames_scene, ExtractResult.frameCountOrZero]
  rw [if_pos (by omega)]

/-- Witness for C7 at a concrete 80-frame scene result. -/
theorem C7_unknown_duration_keeps_scene_witness :
    (50 < (List.replicate 80 "s.jpg").length ∨ (List.replicate 80 "s.jpg").length < 5) ∧
    autoModeResult (.ok (List.replicate 80 "s.jpg")) (.ok ["frame_0001.jpg"]) none =
      .sceneSuccess (3/10) (List.replicate 80 "s.jpg") :=
  ⟨by decide, C7_unknown_duration_keeps_scene _ _ (by decide)⟩

/-- **C10.** A probed duration of exactly 0.0 is treated identically to an
unknown duration: `autoModeResult` gives the same answer on `some 0` as on
`none` for every engine outcome, and in particular with an unsatisfactory
scene frame count the scene-based result is kept. -/
theorem C10_zero_duration_as_unknown :
    (∀ (se ie : EngineOutcome),
      autoModeResult se ie (some 0) = autoModeResult se ie none) ∧
    (∀ (fs : List String) (ie : EngineOutcome), 50 < fs.length ∨ fs.length < 5 →
      autoModeResult (.ok fs) ie (some 0) = .sceneSuccess (3/10) fs) := by
  constructor
  · intro se ie
    simp only [autoModeResult]
    by_cases h : (extract_frames_scene (3/10) se).frameCountOrZero > 50 ∨
        (extract_frames_scene (3/10) se).frameCountOrZero < 5
    · rw [if_pos h, if_pos h]
      simp
    · rw [if_neg h, if_neg h]
  · intro fs ie hc
    simp only [autoModeResult, extract_frames_scene, ExtractResult.frameCountOrZero]
    rw [if_pos (by omega)]
    simp

/-- Witness for C10 at a concrete 80-frame scene result and zero duration. -/
theorem C10_zero_duration_as_unknown_witness :
    autoModeResult (.ok (List.replicate 80 "scene.jpg")) (.ok ["frame_0001.jpg"]) (some 0) =
      autoModeResult (.ok (List.replicate 80 "scene.jpg")) (.ok ["frame_0001.jpg"]) none ∧
    autoModeResult (.ok (List.replicate 80 "scene.jpg")) (.ok ["frame_0001.jpg"]) (some 0) =
      .sceneSuccess (3/10) (List.replicate 80 "scene.jpg") :=
  ⟨C10_zero_duration_as_unknown.1 _ _,
    C10_zero_duration_as_unknown.2 _ _ (by decide)⟩

end BilibiliAnalyzer

namespace BilibiliAnalyzer

/-- **C3.** In auto mode, a scene-change extraction succeeding with an
unsatisfactory frame count (> 50 or < 5), together with a duration probe
reporting a known (usably nonzero) duration `d`, runs the interval
extractor with `interval = max(10, ⌊d / 30⌋)` and returns its result in
place of the scene-based one. -/
theorem C3_unsatisfactory_known_duration_fallback (fs : List String)
    (ie : EngineOutcome) (d : ℚ) (hc : 50 < fs.length ∨ fs.length < 5)
    (hd : d ≠ 0) :
    autoModeResult (.ok fs) ie (some d) =
      extract_frames_interval (max 10 ⌊d / 30⌋) ie := by
  simp only [autoModeResult, extract_frames_scene, ExtractResult.frameCountOrZero]
  rw [if_pos (by omega)]
  show (if d = 0 then ExtractResult.sceneSuccess (3/10) fs
      else extract_frames_interval (fallbackInterval d) ie) =
    extract_frames_interval (max 10 ⌊d / 30⌋) ie
  rw [if_neg hd, fallbackInterval_eq_max_floor]

/-- Witness for C3: a 900-second video whose scene detection returned 80
frames falls back to interval extraction with interval 30. -/
theorem C3_unsatisfactory_known_duration_fallback_witness :
    (50 < (List.replicate 80 "scene.jpg").length ∨
      (List.replicate 80 "scene.jpg").length < 5) ∧
    (900 : ℚ) ≠ 0 ∧
    autoModeResult (.ok (List.replicate 80 "scene.jpg")) (.ok ["frame_0001.jpg"])
        (some 900) =
      .intervalSuccess 30 ["frame_0001.jpg"] := by
  refine ⟨by decide, by norm_num, ?_⟩
  rw [C3_unsatisfactory_known_duration_fallback (List.replicate 80 "scene.jpg")
    (.ok ["frame_0001.jpg"]) 900 (by decide) (by norm_num)]
  have h30 : (⌊(900 : ℚ) / 30⌋ : ℤ) = 30 := by norm_num
  rw [h30]
  rfl

/-- **C1 counterexample.** A scene extraction failing outright (nonzero
engine exit) is not propagated when the probe knows a duration: the
missing `frame_count` defaults to 0, the fallback triggers, and the final
result is the interval extractor's result, not the scene failure. -/
theorem C1_scene_failure_fallback_cex :
    autoModeResult (.calledProcessError "boom") (.ok ["frame_0001.jpg"]) (some 900) =
      .intervalSuccess 30 ["frame_0001.jpg"] ∧
    autoModeResult (.calledProcessError "boom") (.ok ["frame_0001.jpg"]) (some 900) ≠
      extract_frames_scene (3/10) (.calledProcessError "boom") := by
  have h : autoModeResult (.calledProcessError "boom") (.ok ["frame_0001.jpg"])
      (some 900) = .intervalSuccess 30 ["frame_0001.jpg"] := by
    simp only [autoModeResult, extract_frames_scene, ExtractResult.frameCountOrZero]
    rw [if_pos (by omega)]
    show (if (900 : ℚ) = 0 then ExtractResult.failure "Frame extraction failed" "boom"
        else extract_frames_interval (fallbackInterval 900) (.ok ["frame_0001.jpg"])) =
      ExtractResult.intervalSuccess 30 ["frame_0001.jpg"]
    rw [if_neg (by norm_num), fallbackInterval_eq_max_floor]
    have h30 : (⌊(900 : ℚ) / 30⌋ : ℤ) = 30 := by norm_num
    rw [h30]
    rfl
  refine ⟨h, ?_⟩
  rw [h]
  simp [extract_frames_scene]

/-- **C1 amended.** In auto mode a scene extraction that fails outright
does reach the fallback path (its missing frame count reads as 0): the
duration probe is consulted, the failure propagates only when the probe
reports no duration or a zero duration, and a nonzero duration `d` makes
the interval extractor run with `max(10, ⌊d / 30⌋)`, its result becoming
the final one. -/
theorem C1_scene_failure_fallback_amended (se ie : EngineOutcome) (p : Option ℚ)
    (hfail : (extract_frames_scene (3/10) se).isFailure = true) :
    autoModeResult se ie p =
      match p with
      | none => extract_frames_scene (3/10) se
      | some d =>
          if d = 0 then extract_frames_scene (3/10) se
          else extract_frames_interval (max 10 ⌊d / 30⌋) ie := by
  have hz : (extract_frames_scene (3/10) se).frameCountOrZero = 0 := by
    cases se with
    | ok fs => simp [extract_frames_scene, ExtractResult.isFailure] at hfail
    | calledProcessError s => rfl
    | fileNotFound => rfl
    | otherError s => rfl
  simp only [autoModeResult, hz]
  rw [if_pos (by omega)]
  cases p with
  | none => rfl
  | some d =>
      show (if d = 0 then extract_frames_scene (3/10) se
          else extract_frames_interval (fallbackInterval d) ie) =
        (if d = 0 then extract_frames_scene (3/10) se
          else extract_frames_interval (max 10 ⌊d / 30⌋) ie)
      rw [fallbackInterval_eq_max_floor]

/-- Witness for the amended C1 at a concrete failed scene extraction and a
900-second probe. -/
theorem C1_scene_failure_fallback_amended_witness :
    (extract_frames_scene (3/10) (.calledProcessError "x")).isFailure = true ∧
    autoModeResult (.calledProcessError "x") (.ok ["frame_0002.jpg"]) (some 900) =
      extract_frames_interval (max 10 ⌊(900 : ℚ) / 30⌋) (.ok ["frame_0002.jpg"]) := by
  refine ⟨rfl, ?_⟩
  have h := C1_scene_failure_fallback_amended (.calledProcessError "x")
    (.ok ["frame_0002.jpg"]) (some 900) rfl
  rw [h]
  show (if (900 : ℚ) = 0 then ExtractResult.failure "Frame extraction failed" "x"
      else extract_frames_interval (max 10 ⌊(900 : ℚ) / 30⌋) (.ok ["frame_0002.jpg"])) = _
  rw [if_neg (by norm_num)]

/-- **C4 counterexample.** An extraction whose engine run succeeds but
produces zero matching frame files is still classified as a success, with
an empty frame sequence — not as a failure. -/
theorem C4_empty_success_cex :
    (extract_frames_interval 10 (.ok [])).isSuccess = true ∧
    (extract_frames_interval 10 (.ok [])).framesOf = [] ∧
    (extract_frames_scene (3/10) (.ok [])).isSuccess = true ∧
    (extract_frames_scene (3/10) (.ok [])).framesOf = [] :=
  ⟨rfl, rfl, rfl, rfl⟩

/-- **C4 amended.** A success result from either extractor carries exactly
the (possibly empty) list of frame files the glob found after the engine
invocation succeeded; emptiness is not checked and does not demote the
result to a failure. -/
theorem C4_success_frames_from_glob (i : ℤ) (t : ℚ) (fs : List String) :
    extract_frames_interval i (.ok fs) = .intervalSuccess i fs ∧
    extract_frames_scene t (.ok fs) = .sceneSuccess t fs ∧
    (extract_frames_interval i (.ok fs)).isSuccess = true ∧
    (extract_frames_scene t (.ok fs)).isSuccess = true :=
  ⟨rfl, rfl, rfl, rfl⟩

/-- **C5 counterexample.** A non-positive integer mode string is not
rejected: `int("0")` returns 0 and `int("-5")` returns -5 (neither raises
`ValueError`), so the dispatch invokes the interval extractor with
intervals 0 and -5 instead of reporting a caller error. -/
theorem C5_nonpositive_interval_accepted_cex :
    mainMode "0" (some 0) (.ok []) (.ok ["frame_0001.jpg"]) none =
      .finished (.intervalSuccess 0 ["frame_0001.jpg"]) ∧
    mainMode "-5" (some (-5)) (.ok []) (.ok ["frame_0001.jpg"]) none =
      .finished (.intervalSuccess (-5) ["frame_0001.jpg"]) := by
  constructor
  · decide
  · decide

/-- **C5 amended.** In explicit interval mode the dispatch is keyed solely
on whether `int(mode)` raises `ValueError`: when it raises, the call is
rejected as a caller error and the extractor is never attempted; when it
returns any integer `i` — zero and negatives included — the interval
extractor is invoked with `i`, with no positivity check. -/
theorem C5_mode_parse_dispatch (mode : String) (intParse : Option ℤ)
    (se ie : EngineOutcome) (p : Option ℚ) (hmode : mode ≠ "auto") :
    (intParse = none → mainMode mode intParse se ie p = .invalidInterval) ∧
    (∀ i : ℤ, intParse = some i →
      mainMode mode intParse se ie p = .finished (extract_frames_interval i ie)) := by
  constructor
  · intro hp
    simp only [mainMode, if_neg hmode, hp]
  · intro i hp
    simp only [mainMode, if_neg hmode, hp]

/-- Witness for the amended C5: the non-numeric mode "fast" (on which
`int` raises) is rejected, while the mode "-5" (on which `int` returns -5)
reaches the interval extractor. -/
theorem C5_mode_parse_dispatch_witness :
    ("fast" : String) ≠ "auto" ∧
    mainMode "fast" none (.ok []) (.ok []) none = .invalidInterval ∧
    ("-5" : String) ≠ "auto" ∧
    mainMode "-5" (some (-5)) (.ok []) (.ok ["f.jpg"]) none =
      .finished (extract_frames_interval (-5) (.ok ["f.jpg"])) :=
  ⟨by decide,
    (C5_mode_parse_dispatch "fast" none (.ok []) (.ok []) none (by decide)).1 rfl,
    by decide,
    (C5_mode_parse_dispatch "-5" (some (-5)) (.ok []) (.ok ["f.jpg"]) none
      (by decide)).2 (-5) rfl⟩

end BilibiliAnalyzer

namespace BilibiliAnalyzer

/-- **C2.** Even sampling: with `n = files.length > 0` and `k > 0`, a
directory with `n ≤ k` matching frames yields all `n` frames in their
(glob-sorted) order; with `n > k` it yields exactly the `k` frames at
indices `{0, step, ..., (k-1)*step}`, `step = n // k`, which are strictly
increasing and all below `n`. -/
theorem C2_sampler_even_selection (files : List Frame) (k : ℕ)
    (_hn : 0 < files.length) (hk : 0 < k) :
    (files.length ≤ k → sampleSelected files k = some files) ∧
    (k < files.length →
      sampleSelected files k =
        some ((selectedIndices files.length k).map
          (fun i => files.getD i ⟨"", none⟩)) ∧
      (selectedIndices files.length k).length = k ∧
      List.Pairwise (· < ·) (selectedIndices files.length k) ∧
      ∀ i ∈ selectedIndices files.length k, i < files.length) := by
  constructor
  · intro hle
    simp only [sampleSelected]
    rw [if_pos hle]
  · intro hlt
    have hstep : 1 ≤ files.length / k :=
      (Nat.one_le_div_iff hk).mpr (le_of_lt hlt)
    have hbound : ∀ i ∈ selectedIndices files.length k, i < files.length := by
      intro i hi
      unfold selectedIndices at hi
      rw [List.mem_map] at hi
      obtain ⟨j, hj, rfl⟩ := hi
      rw [List.mem_range] at hj
      exact sample_index_lt files.length k j hk hlt hj
    refine ⟨?_, by simp [selectedIndices], ?_, hbound⟩
    · simp only [sampleSelected]
      rw [if_neg (by omega), if_neg (by omega)]
      rw [mapM_getElem_of_bounds files ⟨"", none⟩
        (fun i => i * (files.length / k)) (List.range k)
        (fun j hj => sample_index_lt files.length k j hk hlt
          (List.mem_range.mp hj))]
      unfold selectedIndices
      rw [List.map_map]
      rfl
    · unfold selectedIndices
      rw [List.pairwise_map]
      exact (List.pairwise_lt_range k).imp
        (fun h => Nat.mul_lt_mul_of_pos_right h hstep)

/-- Witness for C2: 17 frames sampled with target 8 select the frames at
indices 0, 2, 4, 6, 8, 10, 12, 14 (step = 17 // 8 = 2). -/
theorem C2_sampler_even_selection_witness :
    0 < (List.replicate 17 frameA).length ∧ 0 < 8 ∧
    8 < (List.replicate 17 frameA).length ∧
    sampleSelected (List.replicate 17 frameA) 8 =
      some ((selectedIndices (List.replicate 17 frameA).length 8).map
        (fun i => (List.replicate 17 frameA).getD i ⟨"", none⟩)) ∧
    selectedIndices 17 8 = [0, 2, 4, 6, 8, 10, 12, 14] :=
  ⟨by decide, by decide, by decide,
    ((C2_sampler_even_selection (List.replicate 17 frameA) 8
      (by decide) (by decide)).2 (by decide)).1,
    by decide⟩

/-- **C9.** Sampling with `sample_count = 0` over a nonempty frame list
reaches the unguarded `total_frames // sample_count` and escapes as an
uncaught `ZeroDivisionError` instead of any structured error result. -/
theorem C9_zero_sample_count_crash (d : FramesDir) (h1 : d.dirExists = true)
    (h2 : d.files ≠ []) : analyze_frames d 0 = .crash := by
  have hlen : d.files.length ≠ 0 := by
    simpa using h2
  have hsel : sampleSelected d.files 0 = none := by
    simp only [sampleSelected]
    rw [if_neg (by omega)]
    simp
  simp only [analyze_frames, h1]
  rw [if_neg (by simp)]
  rw [if_neg (by simp [List.isEmpty_iff, h2])]
  rw [hsel]

/-- Witness for C9 at a one-frame directory. -/
theorem C9_zero_sample_count_crash_witness :
    (⟨"frames", true, [frameGood]⟩ : FramesDir).dirExists = true ∧
    (⟨"frames", true, [frameGood]⟩ : FramesDir).files ≠ [] ∧
    analyze_frames ⟨"frames", true, [frameGood]⟩ 0 = .crash :=
  ⟨rfl, by decide,
    C9_zero_sample_count_crash ⟨"frames", true, [frameGood]⟩ rfl (by decide)⟩

end BilibiliAnalyzer

namespace BilibiliAnalyzer

/-- **C8.** The sampler's failure taxonomy: a missing directory, an
existing directory with no matching files, and a selection in which every
frame fails to read each produce their own error result, with pairwise
distinct error categories; and when at least one selected frame is
readable the operation succeeds, reporting exactly one record per readable
selected frame (unreadable ones are skipped, they do not fail the run). -/
theorem C8_sampler_failure_taxonomy :
    (∀ (d : FramesDir) (k : ℕ), d.dirExists = false →
      analyze_frames d k =
        .err "Frames directory not found"
          ("Directory " ++ d.path ++ " does not exist")) ∧
    (∀ (d : FramesDir) (k : ℕ), d.dirExists = true → d.files = [] →
      analyze_frames d k =
        .err "No frames found" ("No frame_*.jpg files in " ++ d.path)) ∧
    (∀ (d : FramesDir) (k : ℕ) (sel : List Frame), d.dirExists = true →
      d.files ≠ [] → sampleSelected d.files k = some sel →
      (∀ f ∈ sel, f.readResult = none) →
      analyze_frames d k =
        .err "Failed to process frames" "Could not read any frame files") ∧
    (("Frames directory not found" : String) ≠ "No frames found" ∧
      ("Frames directory not found" : String) ≠ "Failed to process frames" ∧
      ("No frames found" : String) ≠ "Failed to process frames") ∧
    (∀ (d : FramesDir) (k : ℕ) (sel : List Frame), d.dirExists = true →
      d.files ≠ [] → sampleSelected d.files k = some sel →
      sel.filterMap Frame.readData ≠ [] →
      analyze_frames d k =
        .ok d.files.length (sel.filterMap Frame.readData).length
          (sel.filterMap Frame.readData) ∧
      (sel.filterMap Frame.readData).length =
        (sel.filter (fun f => f.readResult.isSome)).length) := by
  refine ⟨?_, ?_, ?_, ⟨by decide, by decide, by decide⟩, ?_⟩
  · intro d k h
    simp [analyze_frames, h]
  · intro d k h1 h2
    simp [analyze_frames, h1, h2]
  · intro d k sel h1 h2 hsel hall
    simp only [analyze_frames, h1]
    rw [if_neg (by simp)]
    rw [if_neg (by simp [List.isEmpty_iff, h2])]
    rw [hsel]
    simp [filterMap_readData_eq_nil sel hall]
  · intro d k sel h1 h2 hsel hne
    refine ⟨?_, length_filterMap_readData sel⟩
    simp only [analyze_frames, h1]
    rw [if_neg (by simp)]
    rw [if_neg (by simp [List.isEmpty_iff, h2])]
    rw [hsel]
    simp [List.isEmpty_iff, hne]

/-- Witness for C8 at four concrete directories: missing, empty, all reads
failing, and one unreadable frame among readable ones (skipped). -/
theorem C8_sampler_failure_taxonomy_witness :
    analyze_frames dirMissing 8 =
      .err "Frames directory not found"
        "Directory frames_missing does not exist" ∧
    analyze_frames dirEmpty 8 =
      .err "No frames found" "No frame_*.jpg files in frames_empty" ∧
    analyze_frames dirAllBad 8 =
      .err "Failed to process frames" "Could not read any frame files" ∧
    analyze_frames dirMixed 8 = .ok 2 1 [("frame_0002.jpg", 5, 4)] := by
  obtain ⟨h1, h2, h3, _hdist, h5⟩ := C8_sampler_failure_taxonomy
  refine ⟨?_, ?_, ?_, ?_⟩
  · rw [h1 dirMissing 8 rfl]
    decide
  · rw [h2 dirEmpty 8 rfl rfl]
    decide
  · exact h3 dirAllBad 8 [frameBad] rfl (by decide) (by decide) (by decide)
  · have h := (h5 dirMixed 8 [frameBad, frameGood] rfl (by decide)
      (by decide) (by decide)).1
    rw [h]
    decide

end BilibiliAnalyzer
